import Mathlib

/-!
Shallow embedding of the HVAC test-result computation engine: the numeric and
threshold-check primitives of src/lib/calculations.ts and the per-test-type
computation routines plus dispatcher of the test-computations module.

Modelling conventions:
* JS numbers are modelled as real numbers.  The one unguarded division in the
  engine (the decay_percentage entry of the pressure-decay routine) is modelled
  with IEEE-style semantics via JsNum below, so that division by zero yields a
  non-finite value rather than a conventional total-division default; every
  other division in the engine sits behind an explicit zero guard.
* JS template-string rendering of numbers (toFixed, interpolation) is
  display-only; it is modelled by the abstract renderer renderNum.
* TS optional fields and optional parameters are modelled as Option values; a
  TS default parameter (which in JS fires exactly when the argument is
  undefined) is modelled with Option.getD.
* The JS short-circuit a || b on numbers (which falls through on 0 as well as
  on undefined) is modelled by jsOrNum / jsOrOpt.
-/

noncomputable section

/-- Display-only rendering of a JS number (template interpolation, toFixed).
No claim concerns rendered digits, so the renderer is modelled as a constant
function. -/
def renderNum : ℝ → String := fun _ => ""

/-- JS (IEEE-754) numeric value as relevant to this engine: a finite real,
an infinity, or NaN. -/
inductive JsNum where
  | fin (x : ℝ)
  | posInf
  | negInf
  | nan

/-- JS division of two finite numbers: by zero it produces an infinity of the
dividend's sign, or NaN for 0/0; otherwise the exact real quotient. -/
def jsDiv (x y : ℝ) : JsNum :=
  if y = 0 then
    if 0 < x then JsNum.posInf else if x < 0 then JsNum.negInf else JsNum.nan
  else JsNum.fin (x / y)

/-- JS multiplication of a number by a positive finite constant (used for the
literal factor 100): infinities keep their sign and NaN propagates. -/
def jsMulByPos (a : JsNum) (c : ℝ) : JsNum :=
  match a with
  | JsNum.fin x => JsNum.fin (x * c)
  | JsNum.posInf => JsNum.posInf
  | JsNum.negInf => JsNum.negInf
  | JsNum.nan => JsNum.nan

/-- JS expression a || b where a is a possibly-undefined number and b a number:
undefined and 0 both fall through to b. -/
def jsOrNum (a : Option ℝ) (b : ℝ) : ℝ :=
  match a with
  | none => b
  | some x => if x = 0 then b else x

/-- JS expression a || b where both operands are possibly-undefined numbers:
undefined and 0 both fall through to b. -/
def jsOrOpt (a b : Option ℝ) : Option ℝ :=
  match a with
  | none => b
  | some x => if x = 0 then b else some x

/-- Dew point via the Magnus formula (calculations.ts, calculateDewPoint):
convert to Celsius, gamma from log of RH fraction, solve, convert back.
Real.log agrees with Math.log on positive arguments; the engine's documented
domain excludes RH = 0. -/
def calculateDewPoint (tempF rh : ℝ) : ℝ :=
  let tempC := (tempF - 32) * 5 / 9
  let a : ℝ := 17.625
  let b : ℝ := 243.04
  let gamma := Real.log (rh / 100) + (a * tempC) / (b + tempC)
  let dewPointC := (b * gamma) / (a - gamma)
  dewPointC * 9 / 5 + 32

/-- CFM per ton (calculations.ts, calculateCfmPerTon); returns 0 when tons is
zero. -/
def calculateCfmPerTon (cfm tons : ℝ) : ℝ :=
  if tons = 0 then 0 else cfm / tons

/-- Simplified saturation temperature lookup (calculations.ts,
getSaturationTemp): piecewise-linear for R-410A, generic linear otherwise. -/
def getSaturationTemp (pressure : ℝ) (refrigerant : String) : ℝ :=
  if refrigerant = "R-410A" then
    if pressure ≤ 50 then -20 + pressure * 1.6
    else if pressure ≤ 100 then 60 + (pressure - 50) * 1.2
    else if pressure ≤ 200 then 120 + (pressure - 100) * 0.8
    else 200 + (pressure - 200) * 0.4
  else 32 + pressure * 0.5

/-- Superheat (calculations.ts, calculateSuperheat).  The TS refrigerant
parameter defaults to R-410A; the default is supplied explicitly at call
sites here. -/
def calculateSuperheat (suctionLineTemp suctionPressure : ℝ) (refrigerant : String) : ℝ :=
  suctionLineTemp - getSaturationTemp suctionPressure refrigerant

/-- Subcooling (calculations.ts, calculateSubcooling). -/
def calculateSubcooling (liquidLineTemp liquidPressure : ℝ) (refrigerant : String) : ℝ :=
  getSaturationTemp liquidPressure refrigerant - liquidLineTemp

/-- Value field of a check result: number | string in TS. -/
inductive CheckValue where
  | num (x : ℝ)
  | str (s : String)

/-- Structured pass/fail judgment produced by every threshold-check
primitive. -/
structure CheckResult where
  pass : Prop
  value : CheckValue
  target : String
  message : String

/-- Building-pressure range check (calculations.ts, checkBuildingPressure). -/
def checkBuildingPressure (deltaP : ℝ) : CheckResult :=
  let mn : ℝ := 0.02
  let mx : ℝ := 0.05
  let pass := deltaP ≥ mn ∧ deltaP ≤ mx
  { pass := pass
    value := CheckValue.num deltaP
    target := "0.02 - 0.05 in. w.c."
    message :=
      if pass then "Building pressure within acceptable range"
      else if deltaP < mn then "Building pressure too low - insufficient pressurization"
      else "Building pressure too high - over pressurized" }

/-- CFM-per-ton range check (calculations.ts, checkCfmPerTon). -/
def checkCfmPerTon (cfmPerTon : ℝ) : CheckResult :=
  let mn : ℝ := 350
  let mx : ℝ := 400
  let pass := cfmPerTon ≥ mn ∧ cfmPerTon ≤ mx
  { pass := pass
    value := CheckValue.num cfmPerTon
    target := "350 - 400 CFM/ton"
    message :=
      if pass then "CFM/ton within acceptable range for dehumidification"
      else if cfmPerTon < mn then "CFM/ton too low - may indicate airflow restriction"
      else "CFM/ton too high - poor dehumidification performance" }

/-- Supply-dew-point range check (calculations.ts, checkSupplyDewPoint). -/
def checkSupplyDewPoint (supplyDP : ℝ) : CheckResult :=
  let mn : ℝ := 50
  let mx : ℝ := 55
  let pass := supplyDP ≥ mn ∧ supplyDP ≤ mx
  { pass := pass
    value := CheckValue.num supplyDP
    target := "50 - 55°F"
    message :=
      if pass then "Supply dew point within acceptable range"
      else if supplyDP < mn then "Supply dew point too low - over-dehumidification"
      else "Supply dew point too high - insufficient dehumidification" }

/-- Superheat check with outdoor-adjusted range (calculations.ts,
checkSuperheat).  The TS parameter outdoorTemp has default 95, which in JS
fires exactly when the argument is undefined: modelled by Option.getD.  The
source initialises the bounds to 8/15 and reassigns them in the two adjusted
branches; the if-chains below render the same assignment. -/
def checkSuperheat (superheat : ℝ) (outdoorTemp : Option ℝ) : CheckResult :=
  let t := outdoorTemp.getD 95
  let mn : ℝ := if t > 100 then 6 else if t < 80 then 10 else 8
  let mx : ℝ := if t > 100 then 12 else if t < 80 then 18 else 15
  let pass := superheat ≥ mn ∧ superheat ≤ mx
  { pass := pass
    value := CheckValue.num superheat
    target := if t > 100 then "6 - 12°F" else if t < 80 then "10 - 18°F" else "8 - 15°F"
    message :=
      if pass then "Superheat within acceptable range"
      else if superheat < mn then "Superheat too low - possible refrigerant overcharge or TXV issues"
      else "Superheat too high - possible refrigerant undercharge or restriction" }

/-- Subcooling check with outdoor-adjusted range (calculations.ts,
checkSubcooling); the hot/cold adjustments are the mirror image of the
superheat ones. -/
def checkSubcooling (subcooling : ℝ) (outdoorTemp : Option ℝ) : CheckResult :=
  let t := outdoorTemp.getD 95
  let mn : ℝ := if t > 100 then 10 else if t < 80 then 6 else 8
  let mx : ℝ := if t > 100 then 18 else if t < 80 then 12 else 15
  let pass := subcooling ≥ mn ∧ subcooling ≤ mx
  { pass := pass
    value := CheckValue.num subcooling
    target := if t > 100 then "10 - 18°F" else if t < 80 then "6 - 12°F" else "8 - 15°F"
    message :=
      if pass then "Subcooling within acceptable range"
      else if subcooling < mn then "Subcooling too low - possible refrigerant undercharge"
      else "Subcooling too high - possible refrigerant overcharge or restriction" }

/-- Pressure decay rate (calculations.ts, calculatePressureDecayRate);
returns 0 when the elapsed time is zero. -/
def calculatePressureDecayRate (startPressure endPressure timeSeconds : ℝ) : ℝ :=
  if timeSeconds = 0 then 0
  else
    let decayAmount := startPressure - endPressure
    decayAmount / timeSeconds * 60

/-- Result of calculateStats. -/
structure Stats where
  min : ℝ
  max : ℝ
  avg : ℝ
  stdDev : ℝ

/-- Statistics over a list (calculations.ts, calculateStats): all-zero struct
for the empty list, otherwise min/max (Math.min/Math.max over the spread
array, i.e. a fold), mean, and population standard deviation. -/
def calculateStats (values : List ℝ) : Stats :=
  match values with
  | [] => { min := 0, max := 0, avg := 0, stdDev := 0 }
  | v :: rest =>
    let mn := rest.foldl Min.min v
    let mx := rest.foldl Max.max v
    let avg := (v :: rest).foldl (fun sum val => sum + val) 0 / ((v :: rest).length : ℝ)
    let variance :=
      (v :: rest).foldl (fun sum val => sum + (val - avg) ^ 2) 0 / ((v :: rest).length : ℝ)
    { min := mn, max := mx, avg := avg, stdDev := Real.sqrt variance }

/-- Enum of the slab/wall moisture plastic-test outcome (schemas.ts). -/
inductive PlasticTest where
  | DRY
  | CONDENSATION
  | DARKENING
deriving DecidableEq

/-- String value of a PlasticTest, as stored in the TS payload. -/
def PlasticTest.toStr : PlasticTest → String := fun
  | .DRY => "DRY"
  | .CONDENSATION => "CONDENSATION"
  | .DARKENING => "DARKENING"

/-- JS String.prototype.toLowerCase applied to the PlasticTest value. -/
def PlasticTest.lowercase : PlasticTest → String := fun
  | .DRY => "dry"
  | .CONDENSATION => "condensation"
  | .DARKENING => "darkening"

/-- Airflow test mode enum (schemas.ts). -/
inductive AirMode where
  | COOL
  | DEHUM

/-- Economizer leak-test method enum (schemas.ts). -/
inductive EconMethod where
  | SMOKE
  | VISUAL

/-- String value of an EconMethod. -/
def EconMethod.toStr : EconMethod → String := fun
  | .SMOKE => "SMOKE"
  | .VISUAL => "VISUAL"

/-- BuildingPressureSchema payload (schemas.ts).  targetMin/targetMax are the
literal constants 0.02/0.05 in the schema; the engine ignores them. -/
structure BuildingPressureData where
  location : String
  deltaP_inwc : ℝ
  targetMin : ℝ
  targetMax : ℝ
  exhaustOn : Option Bool
  notes : Option String

/-- PressureDecaySchema payload (schemas.ts). -/
structure PressureDecayData where
  startDeltaP : ℝ
  endDeltaP : ℝ
  decaySeconds : ℝ
  notes : Option String

/-- ReturnCurbLeakageSchema payload (schemas.ts). -/
structure ReturnCurbLeakageData where
  returnStatic_inwc : ℝ
  supplyStatic_inwc : ℝ
  smokeLeaksFound : Bool
  leakLocations : Option (List String)
  notes : Option String

/-- SlabWallMoistureSchema payload (schemas.ts). -/
structure SlabWallMoistureData where
  plasticTest : PlasticTest
  irFindings : Option String
  notes : Option String

/-- AirflowStaticSchema payload (schemas.ts); returnCFM is optional. -/
structure AirflowStaticData where
  unitLabel : String
  tons : ℝ
  supplyCFM : ℝ
  returnCFM : Option ℝ
  extStatic_inwc : ℝ
  mode : AirMode
  notes : Option String

/-- RefrigerantCircuitSchema payload (schemas.ts).  outdoorDB_F is required by
the zod schema, but the engine receives an unvalidated cast and the 95°F
default inside checkSuperheat/checkSubcooling is reachable exactly when the
field is absent at runtime, so it is modelled as optional here. -/
structure RefrigerantCircuitData where
  unitLabel : String
  outdoorDB_F : Option ℝ
  suctionPSI : ℝ
  liquidPSI : ℝ
  suctionLineTemp_F : ℝ
  liquidLineTemp_F : ℝ
  txvPresent : Option Bool
  notes : Option String

/-- CoilPerformanceSchema payload (schemas.ts); the condensate volume is
optional. -/
structure CoilPerformanceData where
  unitLabel : String
  returnDB_F : ℝ
  returnRH_pct : ℝ
  supplyDB_F : ℝ
  supplyRH_pct : ℝ
  condensateVolume_oz_per_30min : Option ℝ
  notes : Option String

/-- FanEvapRecheckSchema payload (schemas.ts). -/
structure FanEvapRecheckData where
  unitLabel : String
  returnDB_F : ℝ
  returnRH_pct : ℝ
  supplyDB_F : ℝ
  supplyRH_pct : ℝ
  airflowCFM : ℝ
  staticPressure_inwc : ℝ
  notes : Option String

/-- EconomizerSealSchema payload (schemas.ts). -/
structure EconomizerSealData where
  commandedPct : ℝ
  leakageObserved : Bool
  method : EconMethod
  notes : Option String

/-- One grid sample of the distribution/mixing test (schemas.ts). -/
structure GridSample where
  point : String
  db_F : ℝ
  rh_pct : ℝ

/-- DistributionMixingSchema payload (schemas.ts); the schema requires at
least one grid sample. -/
structure DistributionMixingData where
  zone : String
  gridSamples : List GridSample
  returnDewPoint_F : ℝ
  notes : Option String

/-- Optional weather context handed to the dispatcher (session outdoor
dry-bulb and RH). -/
structure WeatherData where
  outdoorTemp : Option ℝ
  outdoorRH : Option ℝ

/-- Output of the engine: insertion-ordered calculations and checks maps
(association lists), overall pass, one-line summary. -/
structure ComputedResult where
  calculations : List (String × JsNum)
  checks : List (String × CheckResult)
  pass : Prop
  summary : String

/-- Discriminated union of the ten reading payload shapes. -/
inductive Reading where
  | buildingPressure (d : BuildingPressureData)
  | pressureDecay (d : PressureDecayData)
  | returnCurbLeakage (d : ReturnCurbLeakageData)
  | slabWallMoisture (d : SlabWallMoistureData)
  | airflowStatic (d : AirflowStaticData)
  | refrigerantCircuit (d : RefrigerantCircuitData)
  | coilPerformance (d : CoilPerformanceData)
  | fanEvapRecheck (d : FanEvapRecheckData)
  | economizerSeal (d : EconomizerSealData)
  | distributionMixing (d : DistributionMixingData)

/-- Building-pressure routine (test-computations, computeBuildingPressure). -/
def computeBuildingPressure (data : BuildingPressureData) : ComputedResult :=
  let check := checkBuildingPressure data.deltaP_inwc
  { calculations := [("pressure_inwc", JsNum.fin data.deltaP_inwc)]
    checks := [("building_pressure", check)]
    pass := check.pass
    summary := check.message }

/-- Pressure-decay routine (test-computations, computePressureDecay).  The
decay_percentage entry divides by startDeltaP with no zero guard; that JS
division is modelled exactly by jsDiv/jsMulByPos. -/
def computePressureDecay (data : PressureDecayData) : ComputedResult :=
  let decayRate := calculatePressureDecayRate data.startDeltaP data.endDeltaP data.decaySeconds
  let totalDecay := data.startDeltaP - data.endDeltaP
  let acceptableDecayRate : ℝ := 0.01
  let pass := decayRate ≤ acceptableDecayRate
  { calculations := [
      ("decay_rate_per_min", JsNum.fin decayRate),
      ("total_decay_inwc", JsNum.fin totalDecay),
      ("decay_percentage", jsMulByPos (jsDiv totalDecay data.startDeltaP) 100)]
    checks := [("decay_rate",
      { pass := pass
        value := CheckValue.num decayRate
        target := "≤ 0.01 in. w.c./min"
        message :=
          if pass then "Pressure decay within acceptable limits"
          else "Excessive pressure decay - check for envelope leaks" })]
    pass := pass
    summary :=
      if pass then "Pressure decay rate of " ++ renderNum decayRate ++ " in. w.c./min is acceptable"
      else "Pressure decay rate of " ++ renderNum decayRate ++ " in. w.c./min exceeds limit" }

/-- Return/curb-leakage routine (test-computations,
computeReturnCurbLeakage). -/
def computeReturnCurbLeakage (data : ReturnCurbLeakageData) : ComputedResult :=
  let pressureDiff := |data.returnStatic_inwc - data.supplyStatic_inwc|
  let maxDiff : ℝ := 0.1
  let pressurePass := pressureDiff ≤ maxDiff
  let leakPass := data.smokeLeaksFound = false
  let overallPass := pressurePass ∧ leakPass
  { calculations := [
      ("return_static_inwc", JsNum.fin data.returnStatic_inwc),
      ("supply_static_inwc", JsNum.fin data.supplyStatic_inwc),
      ("pressure_difference_inwc", JsNum.fin pressureDiff)]
    checks := [
      ("pressure_balance",
        { pass := pressurePass
          value := CheckValue.num pressureDiff
          target := "≤ 0.1 in. w.c."
          message :=
            if pressurePass then "Return/supply pressure difference within limits"
            else "Excessive pressure imbalance detected" }),
      ("smoke_leaks",
        { pass := leakPass
          value := CheckValue.str (if data.smokeLeaksFound then "FOUND" else "NONE")
          target := "NONE"
          message :=
            if leakPass then "No smoke leaks detected"
            else "Smoke leaks found at: " ++
              (match data.leakLocations with
               | none => "unspecified locations"
               | some ls =>
                 let joined := String.intercalate ", " ls
                 if joined = "" then "unspecified locations" else joined) })]
    pass := overallPass
    summary :=
      if overallPass then "Return/curb leakage test passed"
      else "Return/curb leakage issues detected" }

/-- Slab/wall-moisture routine (test-computations, computeSlabWallMoisture). -/
def computeSlabWallMoisture (data : SlabWallMoistureData) : ComputedResult :=
  let pass := data.plasticTest = PlasticTest.DRY
  { calculations := []
    checks := [("plastic_test",
      { pass := pass
        value := CheckValue.str data.plasticTest.toStr
        target := "DRY"
        message :=
          if pass then "No moisture issues detected under plastic test"
          else "Moisture detected: " ++ data.plasticTest.lowercase })]
    pass := pass
    summary :=
      if pass then "No moisture issues detected"
      else "Moisture issues detected: " ++ data.plasticTest.lowercase }

/-- Airflow/static routine (test-computations, computeAirflowStatic). -/
def computeAirflowStatic (data : AirflowStaticData) : ComputedResult :=
  let cfmPerTon := calculateCfmPerTon data.supplyCFM data.tons
  let cfmCheck := checkCfmPerTon cfmPerTon
  let staticPass := data.extStatic_inwc ≥ 0.3 ∧ data.extStatic_inwc ≤ 1.5
  { calculations := [
      ("cfm_per_ton", JsNum.fin cfmPerTon),
      ("supply_cfm", JsNum.fin data.supplyCFM),
      ("return_cfm", JsNum.fin (jsOrNum data.returnCFM 0)),
      ("external_static_inwc", JsNum.fin data.extStatic_inwc)]
    checks := [
      ("cfm_per_ton", cfmCheck),
      ("external_static",
        { pass := staticPass
          value := CheckValue.num data.extStatic_inwc
          target := "0.3 - 1.5 in. w.c."
          message :=
            if staticPass then "External static pressure within normal range"
            else if data.extStatic_inwc < 0.3 then "External static pressure too low"
            else "External static pressure too high - check for restrictions" })]
    pass := cfmCheck.pass ∧ staticPass
    summary := "CFM/ton: " ++ renderNum cfmPerTon ++ ", Static: " ++
      renderNum data.extStatic_inwc ++ "\" w.c." }

/-- Refrigerant-circuit routine (test-computations,
computeRefrigerantCircuit).  The outdoor temperature fed to the two checks is
the JS expression outdoorTemp || data.outdoorDB_F, so a session temperature
of 0 falls through to the reading's field; a fully absent result triggers the
95°F default inside the checks. -/
def computeRefrigerantCircuit (data : RefrigerantCircuitData) (outdoorTemp : Option ℝ) :
    ComputedResult :=
  let superheat := calculateSuperheat data.suctionLineTemp_F data.suctionPSI "R-410A"
  let subcooling := calculateSubcooling data.liquidLineTemp_F data.liquidPSI "R-410A"
  let shCheck := checkSuperheat superheat (jsOrOpt outdoorTemp data.outdoorDB_F)
  let scCheck := checkSubcooling subcooling (jsOrOpt outdoorTemp data.outdoorDB_F)
  { calculations := [
      ("superheat_F", JsNum.fin superheat),
      ("subcooling_F", JsNum.fin subcooling),
      ("suction_psi", JsNum.fin data.suctionPSI),
      ("liquid_psi", JsNum.fin data.liquidPSI),
      ("suction_temp_F", JsNum.fin data.suctionLineTemp_F),
      ("liquid_temp_F", JsNum.fin data.liquidLineTemp_F)]
    checks := [("superheat", shCheck), ("subcooling", scCheck)]
    pass := shCheck.pass ∧ scCheck.pass
    summary := "SH: " ++ renderNum superheat ++ "°F, SC: " ++ renderNum subcooling ++ "°F" }

/-- Coil-performance routine (test-computations, computeCoilPerformance). -/
def computeCoilPerformance (data : CoilPerformanceData) : ComputedResult :=
  let returnDP := calculateDewPoint data.returnDB_F data.returnRH_pct
  let supplyDP := calculateDewPoint data.supplyDB_F data.supplyRH_pct
  let dewPointDrop := returnDP - supplyDP
  let tempDrop := data.returnDB_F - data.supplyDB_F
  let supplyDPCheck := checkSupplyDewPoint supplyDP
  let tempDropPass := tempDrop ≥ 8 ∧ tempDrop ≤ 25
  { calculations := [
      ("return_dew_point_F", JsNum.fin returnDP),
      ("supply_dew_point_F", JsNum.fin supplyDP),
      ("dew_point_drop_F", JsNum.fin dewPointDrop),
      ("temperature_drop_F", JsNum.fin tempDrop),
      ("condensate_oz_per_30min", JsNum.fin (jsOrNum data.condensateVolume_oz_per_30min 0))]
    checks := [
      ("supply_dew_point", supplyDPCheck),
      ("temperature_drop",
        { pass := tempDropPass
          value := CheckValue.num tempDrop
          target := "8 - 25°F"
          message :=
            if tempDropPass then "Temperature drop within normal range"
            else if tempDrop < 8 then "Insufficient cooling - check refrigerant charge"
            else "Excessive temperature drop - check airflow" })]
    pass := supplyDPCheck.pass ∧ tempDropPass
    summary := "Supply DP: " ++ renderNum supplyDP ++ "°F, ΔT: " ++ renderNum tempDrop ++ "°F" }

/-- Fan/evap-recheck routine (test-computations, computeFanEvapRecheck). -/
def computeFanEvapRecheck (data : FanEvapRecheckData) : ComputedResult :=
  let returnDP := calculateDewPoint data.returnDB_F data.returnRH_pct
  let supplyDP := calculateDewPoint data.supplyDB_F data.supplyRH_pct
  let supplyDPCheck := checkSupplyDewPoint supplyDP
  let staticPass := data.staticPressure_inwc ≥ 0.3 ∧ data.staticPressure_inwc ≤ 1.5
  { calculations := [
      ("return_dew_point_F", JsNum.fin returnDP),
      ("supply_dew_point_F", JsNum.fin supplyDP),
      ("airflow_cfm", JsNum.fin data.airflowCFM),
      ("static_pressure_inwc", JsNum.fin data.staticPressure_inwc)]
    checks := [
      ("supply_dew_point", supplyDPCheck),
      ("static_pressure",
        { pass := staticPass
          value := CheckValue.num data.staticPressure_inwc
          target := "0.3 - 1.5 in. w.c."
          message :=
            if staticPass then "Static pressure acceptable"
            else "Static pressure out of range" })]
    pass := supplyDPCheck.pass ∧ staticPass
    summary := "Fan/evap recheck - Supply DP: " ++ renderNum supplyDP ++ "°F" }

/-- Economizer-seal routine (test-computations, computeEconomizerSeal). -/
def computeEconomizerSeal (data : EconomizerSealData) : ComputedResult :=
  let positionPass := data.commandedPct ≤ 5
  let leakPass := data.leakageObserved = false
  { calculations := [("commanded_position_pct", JsNum.fin data.commandedPct)]
    checks := [
      ("damper_position",
        { pass := positionPass
          value := CheckValue.num data.commandedPct
          target := "0%"
          message :=
            if positionPass then "Economizer damper properly closed"
            else "Economizer damper not fully closed" }),
      ("leakage_test",
        { pass := leakPass
          value := CheckValue.str (if data.leakageObserved then "OBSERVED" else "NONE")
          target := "NONE"
          message :=
            if leakPass then "No leakage observed (" ++ data.method.toStr ++ " test)"
            else "Leakage observed during " ++ data.method.toStr ++ " test" })]
    pass := positionPass ∧ leakPass
    summary :=
      if leakPass then "Economizer seal test passed"
      else "Economizer leakage detected" }

/-- Distribution/mixing routine (test-computations,
computeDistributionMixing). -/
def computeDistributionMixing (data : DistributionMixingData) : ComputedResult :=
  let temperatures := data.gridSamples.map (fun s => s.db_F)
  let humidities := data.gridSamples.map (fun s => s.rh_pct)
  let dewPoints := data.gridSamples.map (fun s => calculateDewPoint s.db_F s.rh_pct)
  let tempStats := calculateStats temperatures
  let rhStats := calculateStats humidities
  let dpStats := calculateStats dewPoints
  let tempVariationPass := tempStats.max - tempStats.min ≤ 5
  let rhVariationPass := rhStats.max - rhStats.min ≤ 10
  { calculations := [
      ("temp_min_F", JsNum.fin tempStats.min),
      ("temp_max_F", JsNum.fin tempStats.max),
      ("temp_avg_F", JsNum.fin tempStats.avg),
      ("temp_variation_F", JsNum.fin (tempStats.max - tempStats.min)),
      ("rh_min_pct", JsNum.fin rhStats.min),
      ("rh_max_pct", JsNum.fin rhStats.max),
      ("rh_avg_pct", JsNum.fin rhStats.avg),
      ("rh_variation_pct", JsNum.fin (rhStats.max - rhStats.min)),
      ("dp_min_F", JsNum.fin dpStats.min),
      ("dp_max_F", JsNum.fin dpStats.max),
      ("dp_avg_F", JsNum.fin dpStats.avg),
      ("return_dp_F", JsNum.fin data.returnDewPoint_F)]
    checks := [
      ("temperature_mixing",
        { pass := tempVariationPass
          value := CheckValue.num (tempStats.max - tempStats.min)
          target := "≤ 5°F variation"
          message :=
            if tempVariationPass then "Good temperature mixing achieved"
            else "Poor temperature mixing - check airflow distribution" }),
      ("humidity_mixing",
        { pass := rhVariationPass
          value := CheckValue.num (rhStats.max - rhStats.min)
          target := "≤ 10% RH variation"
          message :=
            if rhVariationPass then "Good humidity mixing achieved"
            else "Poor humidity mixing - check airflow distribution" })]
    pass := tempVariationPass ∧ rhVariationPass
    summary := "Zone mixing - ΔT: " ++ renderNum (tempStats.max - tempStats.min) ++
      "°F, ΔRH: " ++ renderNum (rhStats.max - rhStats.min) ++ "%" }

/-- Dispatcher (test-computations, computeTestResult).  The TS switch on the
testType string is rendered as a sequential comparison chain; each branch
casts the untyped reading to its per-type shape, modelled by requiring the
matching Reading variant (a recognized type with a mismatched payload sits
outside the validated-input contract and is sent to the same error value).
The default branch throws an Error whose message carries the test type,
modelled as Except.error. -/
def computeTestResult (testType : String) (reading : Reading)
    (weatherData : Option WeatherData) : Except String ComputedResult :=
  let unknown := Except.error ("Unknown test type: " ++ testType)
  if testType = "BUILDING_PRESSURE" then
    match reading with
    | Reading.buildingPressure d => Except.ok (computeBuildingPressure d)
    | _ => unknown
  else if testType = "PRESSURE_DECAY" then
    match reading with
    | Reading.pressureDecay d => Except.ok (computePressureDecay d)
    | _ => unknown
  else if testType = "RETURN_CURB_LEAKAGE" then
    match reading with
    | Reading.returnCurbLeakage d => Except.ok (computeReturnCurbLeakage d)
    | _ => unknown
  else if testType = "SLAB_WALL_MOISTURE" then
    match reading with
    | Reading.slabWallMoisture d => Except.ok (computeSlabWallMoisture d)
    | _ => unknown
  else if testType = "AIRFLOW_STATIC" then
    match reading with
    | Reading.airflowStatic d => Except.ok (computeAirflowStatic d)
    | _ => unknown
  else if testType = "REFRIGERANT_CIRCUIT" then
    match reading with
    | Reading.refrigerantCircuit d =>
      Except.ok (computeRefrigerantCircuit d (weatherData.bind (fun w => w.outdoorTemp)))
    | _ => unknown
  else if testType = "COIL_PERFORMANCE" then
    match reading with
    | Reading.coilPerformance d => Except.ok (computeCoilPerformance d)
    | _ => unknown
  else if testType = "FAN_EVAP_RECHECK" then
    match reading with
    | Reading.fanEvapRecheck d => Except.ok (computeFanEvapRecheck d)
    | _ => unknown
  else if testType = "ECONOMIZER_SEAL" then
    match reading with
    | Reading.economizerSeal d => Except.ok (computeEconomizerSeal d)
    | _ => unknown
  else if testType = "DISTRIBUTION_MIXING" then
    match reading with
    | Reading.distributionMixing d => Except.ok (computeDistributionMixing d)
    | _ => unknown
  else unknown

/-- List of the ten recognized test-type discriminants. -/
def recognizedTestTypes : List String :=
  ["BUILDING_PRESSURE", "PRESSURE_DECAY", "RETURN_CURB_LEAKAGE", "SLAB_WALL_MOISTURE",
   "AIRFLOW_STATIC", "REFRIGERANT_CIRCUIT", "COIL_PERFORMANCE", "FAN_EVAP_RECHECK",
   "ECONOMIZER_SEAL", "DISTRIBUTION_MIXING"]

/-- Concrete building-pressure reading used as a witness input. -/
def sampleBP : BuildingPressureData :=
  { location := "main entry", deltaP_inwc := 0.035, targetMin := 0.02, targetMax := 0.05,
    exhaustOn := none, notes := none }

/-- Concrete pressure-decay reading with nonzero start pressure. -/
def samplePD : PressureDecayData :=
  { startDeltaP := 0.05, endDeltaP := 0.01, decaySeconds := 300, notes := none }

/-- Concrete pressure-decay reading with zero start pressure. -/
def samplePD0 : PressureDecayData :=
  { startDeltaP := 0, endDeltaP := 0.01, decaySeconds := 60, notes := none }

/-- Concrete refrigerant-circuit reading: superheat 9°F, subcooling 10°F. -/
def sampleRC : RefrigerantCircuitData :=
  { unitLabel := "RTU-1", outdoorDB_F := some 95, suctionPSI := 118, liquidPSI := 150,
    suctionLineTemp_F := 143.4, liquidLineTemp_F := 150, txvPresent := none, notes := none }

/-- Concrete refrigerant-circuit reading with the outdoor field absent. -/
def sampleRCnone : RefrigerantCircuitData :=
  { unitLabel := "RTU-2", outdoorDB_F := none, suctionPSI := 118, liquidPSI := 150,
    suctionLineTemp_F := 143.4, liquidLineTemp_F := 150, txvPresent := none, notes := none }

/-- Four grid samples with a 6°F temperature spread. -/
def sampleDM6 : DistributionMixingData :=
  { zone := "zone-1",
    gridSamples := [{ point := "p1", db_F := 70, rh_pct := 50 },
                    { point := "p2", db_F := 76, rh_pct := 50 },
                    { point := "p3", db_F := 72, rh_pct := 50 },
                    { point := "p4", db_F := 74, rh_pct := 50 }],
    returnDewPoint_F := 55, notes := none }

/-- Four grid samples with a 4°F temperature spread. -/
def sampleDM4 : DistributionMixingData :=
  { zone := "zone-1",
    gridSamples := [{ point := "p1", db_F := 70, rh_pct := 50 },
                    { point := "p2", db_F := 74, rh_pct := 50 },
                    { point := "p3", db_F := 72, rh_pct := 50 },
                    { point := "p4", db_F := 71, rh_pct := 50 }],
    returnDewPoint_F := 55, notes := none }

/-- C6: the numeric primitives never raise on their degenerate inputs and
return the defined values: CFM/ton with zero tons is 0, decay rate over zero
seconds is 0, and statistics of the empty array are the all-zero struct. -/
theorem primitives_degenerate_defaults :
    (∀ cfm : ℝ, calculateCfmPerTon cfm 0 = 0) ∧
    (∀ s e : ℝ, calculatePressureDecayRate s e 0 = 0) ∧
    calculateStats [] = { min := 0, max := 0, avg := 0, stdDev := 0 } := by
  refine ⟨fun cfm => ?_, fun s e => ?_, rfl⟩ <;>
    simp [calculateCfmPerTon, calculatePressureDecayRate]

/-- C4: with the default refrigerant R-410A, superheat is the measured suction
temperature minus the piecewise-linear saturation temperature with breakpoints
at 50/100/200 PSI, subcooling is that saturation temperature minus the liquid
temperature, and any other refrigerant uses the generic 32 + 0.5·P
approximation. -/
theorem superheat_saturation_piecewise (T P : ℝ) (r : String) :
    calculateSuperheat T P "R-410A" =
      T - (if P ≤ 50 then -20 + 1.6 * P
           else if P ≤ 100 then 60 + 1.2 * (P - 50)
           else if P ≤ 200 then 120 + 0.8 * (P - 100)
           else 200 + 0.4 * (P - 200)) ∧
    calculateSubcooling T P "R-410A" =
      (if P ≤ 50 then -20 + 1.6 * P
       else if P ≤ 100 then 60 + 1.2 * (P - 50)
       else if P ≤ 200 then 120 + 0.8 * (P - 100)
       else 200 + 0.4 * (P - 200)) - T ∧
    (r ≠ "R-410A" → getSaturationTemp P r = 32 + 0.5 * P) := by
  unfold calculateSuperheat calculateSubcooling getSaturationTemp
  refine ⟨?_, ?_, fun hr => ?_⟩
  · simp only [if_pos rfl]
    split_ifs <;> ring
  · simp only [if_pos rfl]
    split_ifs <;> ring
  · rw [if_neg hr]
    ring

/-- Witness for C4 at the spec's scenario values. -/
theorem superheat_saturation_piecewise_witness :
    calculateSuperheat 45 118 "R-410A" = 45 - (120 + 0.8 * (118 - 100)) ∧
    getSaturationTemp 118 "R-22" = 32 + 0.5 * 118 := by
  have h := superheat_saturation_piecewise 45 118 "R-22"
  constructor
  · rw [h.1]; norm_num
  · exact h.2.2 (by decide)

/-- C3: checkSuperheat passes iff the superheat lies in 6–12 for outdoor
temperatures above 100°F, 10–18 below 80°F, and 8–15 otherwise (so the base
range applies at exactly 80°F and 100°F); checkSubcooling is symmetric with
the hot/cold ranges swapped. -/
theorem superheat_subcooling_ranges (s c t : ℝ) :
    (t > 100 →
      (((checkSuperheat s (some t)).pass ↔ 6 ≤ s ∧ s ≤ 12) ∧
       ((checkSubcooling c (some t)).pass ↔ 10 ≤ c ∧ c ≤ 18))) ∧
    (t < 80 →
      (((checkSuperheat s (some t)).pass ↔ 10 ≤ s ∧ s ≤ 18) ∧
       ((checkSubcooling c (some t)).pass ↔ 6 ≤ c ∧ c ≤ 12))) ∧
    (80 ≤ t → t ≤ 100 →
      (((checkSuperheat s (some t)).pass ↔ 8 ≤ s ∧ s ≤ 15) ∧
       ((checkSubcooling c (some t)).pass ↔ 8 ≤ c ∧ c ≤ 15))) := by
  simp only [checkSuperheat, checkSubcooling, Option.getD_some]
  refine ⟨fun h => ?_, fun h => ?_, fun h1 h2 => ?_⟩ <;>
    split_ifs <;> first | (exfalso; linarith) | simp_all

/-- Witness for C3 at the boundary outdoor temperatures 80°F and 100.01°F. -/
theorem superheat_subcooling_ranges_witness :
    ((checkSuperheat 9 (some 80)).pass ↔ 8 ≤ (9:ℝ) ∧ (9:ℝ) ≤ 15) ∧
    ((checkSuperheat 9 (some 100.01)).pass ↔ 6 ≤ (9:ℝ) ∧ (9:ℝ) ≤ 12) := by
  constructor
  · exact ((superheat_subcooling_ranges 9 9 80).2.2 (by norm_num) (by norm_num)).1
  · exact ((superheat_subcooling_ranges 9 9 100.01).1 (by norm_num)).1

/-- C5: the dispatcher returns a distinct unknown-test-type error for any
discriminant outside the ten recognized values, and returns a ComputedResult
(no error) for each of the ten recognized values applied to a matching
reading. -/
theorem computeTestResult_dispatch :
    (∀ (d : BuildingPressureData) (w : Option WeatherData),
      computeTestResult "BUILDING_PRESSURE" (Reading.buildingPressure d) w =
        Except.ok (computeBuildingPressure d)) ∧
    (∀ (d : PressureDecayData) (w : Option WeatherData),
      computeTestResult "PRESSURE_DECAY" (Reading.pressureDecay d) w =
        Except.ok (computePressureDecay d)) ∧
    (∀ (d : ReturnCurbLeakageData) (w : Option WeatherData),
      computeTestResult "RETURN_CURB_LEAKAGE" (Reading.returnCurbLeakage d) w =
        Except.ok (computeReturnCurbLeakage d)) ∧
    (∀ (d : SlabWallMoistureData) (w : Option WeatherData),
      computeTestResult "SLAB_WALL_MOISTURE" (Reading.slabWallMoisture d) w =
        Except.ok (computeSlabWallMoisture d)) ∧
    (∀ (d : AirflowStaticData) (w : Option WeatherData),
      computeTestResult "AIRFLOW_STATIC" (Reading.airflowStatic d) w =
        Except.ok (computeAirflowStatic d)) ∧
    (∀ (d : RefrigerantCircuitData) (w : Option WeatherData),
      computeTestResult "REFRIGERANT_CIRCUIT" (Reading.refrigerantCircuit d) w =
        Except.ok (computeRefrigerantCircuit d (w.bind (fun x => x.outdoorTemp)))) ∧
    (∀ (d : CoilPerformanceData) (w : Option WeatherData),
      computeTestResult "COIL_PERFORMANCE" (Reading.coilPerformance d) w =
        Except.ok (computeCoilPerformance d)) ∧
    (∀ (d : FanEvapRecheckData) (w : Option WeatherData),
      computeTestResult "FAN_EVAP_RECHECK" (Reading.fanEvapRecheck d) w =
        Except.ok (computeFanEvapRecheck d)) ∧
    (∀ (d : EconomizerSealData) (w : Option WeatherData),
      computeTestResult "ECONOMIZER_SEAL" (Reading.economizerSeal d) w =
        Except.ok (computeEconomizerSeal d)) ∧
    (∀ (d : DistributionMixingData) (w : Option WeatherData),
      computeTestResult "DISTRIBUTION_MIXING" (Reading.distributionMixing d) w =
        Except.ok (computeDistributionMixing d)) ∧
    (∀ (t : String) (r : Reading) (w : Option WeatherData),
      t ∉ recognizedTestTypes →
      computeTestResult t r w = Except.error ("Unknown test type: " ++ t)) := by
  refine ⟨fun d w => rfl, fun d w => rfl, fun d w => rfl, fun d w => rfl, fun d w => rfl,
    fun d w => rfl, fun d w => rfl, fun d w => rfl, fun d w => rfl, fun d w => rfl,
    fun t r w ht => ?_⟩
  simp only [recognizedTestTypes, List.mem_cons, List.not_mem_nil, or_false, not_or] at ht
  obtain ⟨h1, h2, h3, h4, h5, h6, h7, h8, h9, h10⟩ := ht
  simp [computeTestResult, h1, h2, h3, h4, h5, h6, h7, h8, h9, h10]

/-- Witness for C5: a recognized type yields a result, an unrecognized type
yields the distinct error. -/
theorem computeTestResult_dispatch_witness :
    computeTestResult "BUILDING_PRESSURE" (Reading.buildingPressure sampleBP) none =
      Except.ok (computeBuildingPressure sampleBP) ∧
    computeTestResult "HUMIDITY_RISE" (Reading.buildingPressure sampleBP) none =
      Except.error ("Unknown test type: " ++ "HUMIDITY_RISE") := by
  constructor
  · exact computeTestResult_dispatch.1 sampleBP none
  · exact computeTestResult_dispatch.2.2.2.2.2.2.2.2.2.2 "HUMIDITY_RISE"
      (Reading.buildingPressure sampleBP) none (by decide)

/-- Overall pass of the building-pressure routine is the conjunction of its
check passes. -/
lemma computeBuildingPressure_checksAnd (d : BuildingPressureData) :
    (computeBuildingPressure d).pass ↔
      ∀ c ∈ (computeBuildingPressure d).checks, (Prod.snd c).pass := by
  simp [computeBuildingPressure, List.forall_mem_cons]

/-- Overall pass of the pressure-decay routine is the conjunction of its
check passes. -/
lemma computePressureDecay_checksAnd (d : PressureDecayData) :
    (computePressureDecay d).pass ↔
      ∀ c ∈ (computePressureDecay d).checks, (Prod.snd c).pass := by
  simp [computePressureDecay, List.forall_mem_cons]

/-- Overall pass of the return/curb-leakage routine is the conjunction of its
check passes. -/
lemma computeReturnCurbLeakage_checksAnd (d : ReturnCurbLeakageData) :
    (computeReturnCurbLeakage d).pass ↔
      ∀ c ∈ (computeReturnCurbLeakage d).checks, (Prod.snd c).pass := by
  simp [computeReturnCurbLeakage, List.forall_mem_cons]

/-- Overall pass of the slab/wall-moisture routine is the conjunction of its
check passes. -/
lemma computeSlabWallMoisture_checksAnd (d : SlabWallMoistureData) :
    (computeSlabWallMoisture d).pass ↔
      ∀ c ∈ (computeSlabWallMoisture d).checks, (Prod.snd c).pass := by
  simp [computeSlabWallMoisture, List.forall_mem_cons]

/-- Overall pass of the airflow/static routine is the conjunction of its
check passes. -/
lemma computeAirflowStatic_checksAnd (d : AirflowStaticData) :
    (computeAirflowStatic d).pass ↔
      ∀ c ∈ (computeAirflowStatic d).checks, (Prod.snd c).pass := by
  simp [computeAirflowStatic, List.forall_mem_cons]

/-- Overall pass of the refrigerant-circuit routine is the conjunction of its
check passes. -/
lemma computeRefrigerantCircuit_checksAnd (d : RefrigerantCircuitData) (ot : Option ℝ) :
    (computeRefrigerantCircuit d ot).pass ↔
      ∀ c ∈ (computeRefrigerantCircuit d ot).checks, (Prod.snd c).pass := by
  simp [computeRefrigerantCircuit, List.forall_mem_cons]

/-- Overall pass of the coil-performance routine is the conjunction of its
check passes. -/
lemma computeCoilPerformance_checksAnd (d : CoilPerformanceData) :
    (computeCoilPerformance d).pass ↔
      ∀ c ∈ (computeCoilPerformance d).checks, (Prod.snd c).pass := by
  simp [computeCoilPerformance, List.forall_mem_cons]

/-- Overall pass of the fan/evap-recheck routine is the conjunction of its
check passes. -/
lemma computeFanEvapRecheck_checksAnd (d : FanEvapRecheckData) :
    (computeFanEvapRecheck d).pass ↔
      ∀ c ∈ (computeFanEvapRecheck d).checks, (Prod.snd c).pass := by
  simp [computeFanEvapRecheck, List.forall_mem_cons]

/-- Overall pass of the economizer-seal routine is the conjunction of its
check passes. -/
lemma computeEconomizerSeal_checksAnd (d : EconomizerSealData) :
    (computeEconomizerSeal d).pass ↔
      ∀ c ∈ (computeEconomizerSeal d).checks, (Prod.snd c).pass := by
  simp [computeEconomizerSeal, List.forall_mem_cons]

/-- Overall pass of the distribution/mixing routine is the conjunction of its
check passes. -/
lemma computeDistributionMixing_checksAnd (d : DistributionMixingData) :
    (computeDistributionMixing d).pass ↔
      ∀ c ∈ (computeDistributionMixing d).checks, (Prod.snd c).pass := by
  simp [computeDistributionMixing, List.forall_mem_cons]

set_option maxHeartbeats 8000000 in
/-- C1: for every recognized test type and valid reading, the overall pass of
the ComputedResult produced by computeTestResult is the logical AND of the
pass fields of all entries in its checks map. -/
theorem pass_iff_all_checks (t : String) (r : Reading) (w : Option WeatherData)
    (res : ComputedResult) (h : computeTestResult t r w = Except.ok res) :
    res.pass ↔ ∀ c ∈ res.checks, (Prod.snd c).pass := by
  unfold computeTestResult at h
  cases r with
  | buildingPressure d =>
    dsimp only [] at h
    split_ifs at h
    injection h with h
    subst h
    exact computeBuildingPressure_checksAnd d
  | pressureDecay d =>
    dsimp only [] at h
    split_ifs at h
    injection h with h
    subst h
    exact computePressureDecay_checksAnd d
  | returnCurbLeakage d =>
    dsimp only [] at h
    split_ifs at h
    injection h with h
    subst h
    exact computeReturnCurbLeakage_checksAnd d
  | slabWallMoisture d =>
    dsimp only [] at h
    split_ifs at h
    injection h with h
    subst h
    exact computeSlabWallMoisture_checksAnd d
  | airflowStatic d =>
    dsimp only [] at h
    split_ifs at h
    injection h with h
    subst h
    exact computeAirflowStatic_checksAnd d
  | refrigerantCircuit d =>
    dsimp only [] at h
    split_ifs at h
    injection h with h
    subst h
    exact computeRefrigerantCircuit_checksAnd d (w.bind (fun x => x.outdoorTemp))
  | coilPerformance d =>
    dsimp only [] at h
    split_ifs at h
    injection h with h
    subst h
    exact computeCoilPerformance_checksAnd d
  | fanEvapRecheck d =>
    dsimp only [] at h
    split_ifs at h
    injection h with h
    subst h
    exact computeFanEvapRecheck_checksAnd d
  | economizerSeal d =>
    dsimp only [] at h
    split_ifs at h
    injection h with h
    subst h
    exact computeEconomizerSeal_checksAnd d
  | distributionMixing d =>
    dsimp only [] at h
    split_ifs at h
    injection h with h
    subst h
    exact computeDistributionMixing_checksAnd d

/-- Witness for C1 at a concrete building-pressure invocation. -/
theorem pass_iff_all_checks_witness :
    (computeBuildingPressure sampleBP).pass ↔
      ∀ c ∈ (computeBuildingPressure sampleBP).checks, (Prod.snd c).pass :=
  pass_iff_all_checks "BUILDING_PRESSURE" (Reading.buildingPressure sampleBP) none
    (computeBuildingPressure sampleBP) rfl

/-- C7: a reading with a missing optional field is processed without raising;
the missing field appears as 0 in the calculations map, and the checks map is
exactly the same as with the field present (no check is added, skipped, or
marked failed by the optional field), shown for the two routines with
optional fields: airflow/static (returnCFM) and coil performance
(condensateVolume). -/
theorem optional_fields_defaulted (d : AirflowStaticData) (d2 : CoilPerformanceData) :
    ((computeAirflowStatic { d with returnCFM := none }).calculations.lookup "return_cfm" =
      some (JsNum.fin 0)) ∧
    ((computeAirflowStatic { d with returnCFM := none }).checks =
      (computeAirflowStatic d).checks) ∧
    ((computeAirflowStatic { d with returnCFM := none }).checks.map Prod.fst =
      ["cfm_per_ton", "external_static"]) ∧
    ((computeCoilPerformance { d2 with condensateVolume_oz_per_30min := none
        }).calculations.lookup "condensate_oz_per_30min" = some (JsNum.fin 0)) ∧
    ((computeCoilPerformance { d2 with condensateVolume_oz_per_30min := none }).checks =
      (computeCoilPerformance d2).checks) ∧
    ((computeCoilPerformance { d2 with condensateVolume_oz_per_30min := none }).checks.map
        Prod.fst = ["supply_dew_point", "temperature_drop"]) := by
  refine ⟨rfl, rfl, rfl, rfl, rfl, rfl⟩

/-- C10: the decay_percentage entry of the pressure-decay routine divides by
startDeltaP with no zero guard: for nonzero startDeltaP it equals
(start − end) / start × 100, and for startDeltaP = 0 the division-by-zero
branch is reached and the entry is a non-finite JS value (Infinity or NaN),
not a defined degenerate number as in the guarded primitives. -/
theorem decay_percentage_division (data : PressureDecayData) :
    (data.startDeltaP ≠ 0 →
      (computePressureDecay data).calculations.lookup "decay_percentage" =
        some (JsNum.fin ((data.startDeltaP - data.endDeltaP) / data.startDeltaP * 100))) ∧
    (data.startDeltaP = 0 →
      ∀ x : ℝ, (computePressureDecay data).calculations.lookup "decay_percentage" ≠
        some (JsNum.fin x)) := by
  have hlk : (computePressureDecay data).calculations.lookup "decay_percentage" =
      some (jsMulByPos (jsDiv (data.startDeltaP - data.endDeltaP) data.startDeltaP) 100) := rfl
  constructor
  · intro hs
    rw [hlk, jsDiv, if_neg hs, jsMulByPos]
  · intro hs x
    rw [hlk, jsDiv, if_pos hs]
    split_ifs <;> simp [jsMulByPos]

/-- Witness for C10: a nonzero and a zero startDeltaP instance. -/
theorem decay_percentage_division_witness :
    ((computePressureDecay samplePD).calculations.lookup "decay_percentage" =
      some (JsNum.fin ((0.05 - 0.01) / 0.05 * 100))) ∧
    ((computePressureDecay samplePD0).calculations.lookup "decay_percentage" ≠
      some (JsNum.fin 0)) := by
  constructor
  · have h := (decay_percentage_division samplePD).1 (by norm_num [samplePD])
    simpa [samplePD] using h
  · exact (decay_percentage_division samplePD0).2 (by norm_num [samplePD0]) 0

/-- C2 counterexample: with a present session outdoor temperature of 0°F and
a reading whose own outdoor field is 95°F, the superheat check produced by
the engine passes (superheat 9°F against the 8–15 range of 95°F), while the
check the claim mandates for outdoor temperature 0°F fails (9°F against the
10–18 cold range): the present session value 0°F does not determine the
ranges, because the JS fallback outdoorTemp || outdoorDB_F drops 0. -/
theorem refrigerant_session_zero_counterexample :
    ∃ c, (computeRefrigerantCircuit sampleRC (some 0)).checks.lookup "superheat" = some c ∧
      c.pass ∧
      ¬ (checkSuperheat
          (calculateSuperheat sampleRC.suctionLineTemp_F sampleRC.suctionPSI "R-410A")
          (some 0)).pass := by
  refine ⟨_, rfl, ?_, ?_⟩
  · norm_num [sampleRC, checkSuperheat, calculateSuperheat, getSaturationTemp, jsOrOpt]
  · norm_num [sampleRC, checkSuperheat, calculateSuperheat, getSaturationTemp]

/-- C2 (amended): the outdoor temperature adjusting the refrigerant-circuit
ranges is the session outdoorTemp when present and nonzero; a present session
value of 0°F behaves exactly like an absent one (the JS || fallback), falling
through to the reading's outdoorDB_F field (including a 0°F reading value);
only when that field is also absent do the checks use the fixed 95°F
default. -/
theorem refrigerant_outdoor_fallback (data : RefrigerantCircuitData) (t : ℝ) :
    (t ≠ 0 → (computeRefrigerantCircuit data (some t)).checks =
      [("superheat", checkSuperheat
          (calculateSuperheat data.suctionLineTemp_F data.suctionPSI "R-410A") (some t)),
       ("subcooling", checkSubcooling
          (calculateSubcooling data.liquidLineTemp_F data.liquidPSI "R-410A") (some t))]) ∧
    (computeRefrigerantCircuit data (some 0) = computeRefrigerantCircuit data none) ∧
    ((computeRefrigerantCircuit data none).checks =
      [("superheat", checkSuperheat
          (calculateSuperheat data.suctionLineTemp_F data.suctionPSI "R-410A")
          data.outdoorDB_F),
       ("subcooling", checkSubcooling
          (calculateSubcooling data.liquidLineTemp_F data.liquidPSI "R-410A")
          data.outdoorDB_F)]) ∧
    (data.outdoorDB_F = none →
      (computeRefrigerantCircuit data none).checks =
        [("superheat", checkSuperheat
            (calculateSuperheat data.suctionLineTemp_F data.suctionPSI "R-410A") (some 95)),
         ("subcooling", checkSubcooling
            (calculateSubcooling data.liquidLineTemp_F data.liquidPSI "R-410A") (some 95))]) := by
  refine ⟨fun ht => ?_, ?_, rfl, fun hn => ?_⟩
  · simp [computeRefrigerantCircuit, jsOrOpt, ht]
  · simp [computeRefrigerantCircuit, jsOrOpt]
  · simp only [computeRefrigerantCircuit, jsOrOpt, hn]
    exact rfl

/-- Witness for C2's amended chain: a nonzero session temperature is used
directly, and with both sources absent the checks run at the 95°F default. -/
theorem refrigerant_outdoor_fallback_witness :
    ((computeRefrigerantCircuit sampleRC (some 105)).checks =
      [("superheat", checkSuperheat
          (calculateSuperheat sampleRC.suctionLineTemp_F sampleRC.suctionPSI "R-410A")
          (some 105)),
       ("subcooling", checkSubcooling
          (calculateSubcooling sampleRC.liquidLineTemp_F sampleRC.liquidPSI "R-410A")
          (some 105))]) ∧
    ((computeRefrigerantCircuit sampleRCnone none).checks =
      [("superheat", checkSuperheat
          (calculateSuperheat sampleRCnone.suctionLineTemp_F sampleRCnone.suctionPSI "R-410A")
          (some 95)),
       ("subcooling", checkSubcooling
          (calculateSubcooling sampleRCnone.liquidLineTemp_F sampleRCnone.liquidPSI "R-410A")
          (some 95))]) :=
  ⟨(refrigerant_outdoor_fallback sampleRC 105).1 (by norm_num),
   (refrigerant_outdoor_fallback sampleRCnone 105).2.2.2 rfl⟩

/-- C9: for a non-empty grid-sample list, the distribution/mixing routine
computes a dew point for every sample and min/max/avg statistics over the
temperature, RH and dew-point arrays, and the overall pass holds iff the
temperature spread is at most 5°F and the RH spread at most 10; the two
checks carry exactly those spread conditions. -/
theorem distribution_mixing_spec (data : DistributionMixingData)
    (h : data.gridSamples ≠ []) :
    ((computeDistributionMixing data).pass ↔
      ((calculateStats (data.gridSamples.map (fun s => s.db_F))).max -
        (calculateStats (data.gridSamples.map (fun s => s.db_F))).min ≤ 5 ∧
       (calculateStats (data.gridSamples.map (fun s => s.rh_pct))).max -
        (calculateStats (data.gridSamples.map (fun s => s.rh_pct))).min ≤ 10)) ∧
    ((computeDistributionMixing data).calculations.lookup "dp_min_F" =
      some (JsNum.fin (calculateStats
        (data.gridSamples.map (fun s => calculateDewPoint s.db_F s.rh_pct))).min)) ∧
    ((computeDistributionMixing data).calculations.lookup "dp_max_F" =
      some (JsNum.fin (calculateStats
        (data.gridSamples.map (fun s => calculateDewPoint s.db_F s.rh_pct))).max)) ∧
    ((computeDistributionMixing data).calculations.lookup "dp_avg_F" =
      some (JsNum.fin (calculateStats
        (data.gridSamples.map (fun s => calculateDewPoint s.db_F s.rh_pct))).avg)) ∧
    (∃ c, (computeDistributionMixing data).checks.lookup "temperature_mixing" = some c ∧
      (c.pass ↔ (calculateStats (data.gridSamples.map (fun s => s.db_F))).max -
        (calculateStats (data.gridSamples.map (fun s => s.db_F))).min ≤ 5)) ∧
    (∃ c, (computeDistributionMixing data).checks.lookup "humidity_mixing" = some c ∧
      (c.pass ↔ (calculateStats (data.gridSamples.map (fun s => s.rh_pct))).max -
        (calculateStats (data.gridSamples.map (fun s => s.rh_pct))).min ≤ 10)) :=
  ⟨Iff.rfl, rfl, rfl, rfl, ⟨_, rfl, Iff.rfl⟩, ⟨_, rfl, Iff.rfl⟩⟩

/-- Witness for C9: a 6°F temperature spread fails, a 4°F spread passes. -/
theorem distribution_mixing_spec_witness :
    ¬ (computeDistributionMixing sampleDM6).pass ∧
    (computeDistributionMixing sampleDM4).pass := by
  constructor
  · intro hp
    have h6 := ((distribution_mixing_spec sampleDM6 (by simp [sampleDM6])).1).mp hp
    have := h6.1
    norm_num [sampleDM6, calculateStats, min_def, max_def] at this
  · refine ((distribution_mixing_spec sampleDM4 (by simp [sampleDM4])).1).mpr ?_
    constructor <;> norm_num [sampleDM4, calculateStats, min_def, max_def]

/-- C8: within the plausible temperature range, the Magnus-formula dew point
is at most the dry-bulb temperature for 0 < RH ≤ 100, with equality exactly
at RH = 100. -/
theorem dew_point_le_dry_bulb (T RH : ℝ) (hT1 : -40 ≤ T) (hT2 : T ≤ 150)
    (hRH1 : 0 < RH) (hRH2 : RH ≤ 100) :
    calculateDewPoint T RH ≤ T ∧ (RH = 100 → calculateDewPoint T RH = T) := by
  set t : ℝ := (T - 32) * 5 / 9 with ht
  set gam : ℝ := Real.log (RH / 100) + 17.625 * t / (243.04 + t) with hgam
  have hval : calculateDewPoint T RH = 243.04 * gam / (17.625 - gam) * 9 / 5 + 32 := rfl
  have htlb : -40 ≤ t := by rw [ht]; linarith
  have hbt : (0:ℝ) < 243.04 + t := by linarith
  have hlog : Real.log (RH / 100) ≤ 0 :=
    Real.log_nonpos (by positivity) (by linarith)
  have hgle : gam ≤ 17.625 * t / (243.04 + t) := by rw [hgam]; linarith
  have hkey : gam * (243.04 + t) ≤ 17.625 * t := (le_div_iff₀ hbt).mp hgle
  have hglt : gam < 17.625 := by
    have hfr : 17.625 * t / (243.04 + t) < 17.625 := by
      rw [div_lt_iff₀ hbt]; nlinarith
    linarith
  have hag : (0:ℝ) < 17.625 - gam := by linarith
  have hdpC : 243.04 * gam / (17.625 - gam) ≤ t := by
    rw [div_le_iff₀ hag]; nlinarith [hkey]
  have htT : t * 9 / 5 + 32 = T := by rw [ht]; ring
  constructor
  · rw [hval]; linarith [hdpC]
  · intro h100
    subst h100
    have hlog0 : Real.log ((100:ℝ) / 100) = 0 := by norm_num
    have hg0 : gam = 17.625 * t / (243.04 + t) := by rw [hgam, hlog0]; ring
    have hne : (243.04 + t) ≠ 0 := ne_of_gt hbt
    rw [hval, hg0, ← htT]
    field_simp
    ring

/-- Witness for C8 at 70°F dry bulb. -/
theorem dew_point_le_dry_bulb_witness :
    calculateDewPoint 70 100 = 70 ∧ calculateDewPoint 70 50 ≤ 70 := by
  constructor
  · exact (dew_point_le_dry_bulb 70 100 (by norm_num) (by norm_num) (by norm_num)
      (by norm_num)).2 rfl
  · exact (dew_point_le_dry_bulb 70 50 (by norm_num) (by norm_num) (by norm_num)
      (by norm_num)).1
